import Mathlib

/-!
Verification of the chat_bridge_WEB repository: a shallow embedding of the
provider registry, credential resolver, provider adapters and conversation
orchestrator (bridge_agents.py, backend/main.py, backend/web_gui/backend/main.py),
together with theorems settling the specification claims.

Modelling conventions:
- Python exceptions are modelled by the `PyError` inductive carrying the
  exception class and message; fallible functions return `Except PyError`.
- The process environment (`os.environ` / `os.getenv`) is an explicit
  parameter of type `EnvMap`.
- Wall-clock timestamps (`datetime.now()`) are abstracted away: they never
  influence control flow in the source.
- Network calls performed by the adapters are abstracted as oracles
  (`String -> Except PyError String`); the pure response-handling code of each
  adapter is embedded exactly.
-/

/-- A raised Python exception: class plus message. KeyError, RuntimeError and
ValueError are raised by bridge_agents.py and backend/main.py; TypeError is
raised by the web_gui loop's mis-arity adapter invocation. -/
inductive PyError where
  | keyError (msg : String)
  | runtimeError (msg : String)
  | valueError (msg : String)
  | typeError (msg : String)
deriving DecidableEq, Repr

/-- `str(e)` of a Python exception as sent in error events; `str` of a
KeyError includes quotes around the message. -/
def pyErrorStr : PyError → String
  | .keyError m => "\x27" ++ m ++ "\x27"
  | .runtimeError m => m
  | .valueError m => m
  | .typeError m => m

/-- ProviderSpec dataclass from bridge_agents.py (lines 19-27). -/
structure ProviderSpec where
  key : String
  label : String
  description : String
  needs_key : Bool
  key_env : Option String
  default_model : String
  default_system : String := "You are a helpful assistant."
deriving DecidableEq, Repr

/-- The PROVIDERS registry from bridge_agents.py (lines 30-95), as an
association list in the source's insertion order. -/
def PROVIDERS : List (String × ProviderSpec) :=
  [("openai",
    { key := "openai", label := "OpenAI",
      description := "OpenAI Chat Completions (GPT models).",
      needs_key := true, key_env := some "OPENAI_API_KEY",
      default_model := "gpt-4o-mini" }),
   ("anthropic",
    { key := "anthropic", label := "Anthropic",
      description := "Anthropic Messages API (Claude models).",
      needs_key := true, key_env := some "ANTHROPIC_API_KEY",
      default_model := "claude-3-5-sonnet-20241022" }),
   ("gemini",
    { key := "gemini", label := "Gemini",
      description := "Google Generative AI (Gemini).",
      needs_key := true, key_env := some "GOOGLE_API_KEY",
      default_model := "gemini-1.5-flash" }),
   ("deepseek",
    { key := "deepseek", label := "DeepSeek",
      description := "DeepSeek OpenAI-compatible API.",
      needs_key := true, key_env := some "DEEPSEEK_API_KEY",
      default_model := "deepseek-chat" }),
   ("openrouter",
    { key := "openrouter", label := "OpenRouter",
      description := "OpenRouter OpenAI-compatible API.",
      needs_key := true, key_env := some "OPENROUTER_API_KEY",
      default_model := "openai/gpt-4o-mini" }),
   ("ollama",
    { key := "ollama", label := "Ollama",
      description := "Local Ollama server with OpenAI-compatible endpoint.",
      needs_key := false, key_env := none,
      default_model := "llama3.2:3b" }),
   ("lmstudio",
    { key := "lmstudio", label := "LM Studio",
      description := "Local LM Studio OpenAI-compatible endpoint.",
      needs_key := false, key_env := none,
      default_model := "local-model" }),
   ("autogen",
    { key := "autogen", label := "AutoGen",
      description := "Microsoft AutoGen agent framework (OpenAI-compatible).",
      needs_key := true, key_env := some "OPENAI_API_KEY",
      default_model := "gpt-4o-mini" })]

/-- Dictionary lookup `PROVIDERS[provider]` / `provider in PROVIDERS`. -/
def findSpec (provider : String) : Option ProviderSpec :=
  PROVIDERS.lookup provider

/-- Message of the KeyError raised by get_spec. -/
def unknownProviderMsg (provider : String) : String :=
  "Unknown provider \x27" ++ provider ++ "\x27."

/-- get_spec from bridge_agents.py (lines 103-107): raises KeyError for an
identifier absent from the catalog. -/
def get_spec (provider : String) : Except PyError ProviderSpec :=
  match findSpec provider with
  | some s => .ok s
  | none => .error (.keyError (unknownProviderMsg provider))

/-- Python `str.strip()`: remove leading and trailing whitespace. Defined over
the character list so that it evaluates by kernel reduction. -/
def pyStrip (s : String) : String :=
  String.mk (((s.data.dropWhile Char.isWhitespace).reverse.dropWhile
    Char.isWhitespace).reverse)

/-- resolve_model from bridge_agents.py (lines 110-114): the Python condition
`model and model.strip()` is true when the argument is a non-None, non-empty
string whose strip() is non-empty. -/
def resolve_model (provider : String) (model : Option String) : Except PyError String :=
  match model with
  | some m =>
    if m ≠ "" ∧ pyStrip m ≠ "" then .ok (pyStrip m)
    else (get_spec provider).map (fun s => s.default_model)
  | none => (get_spec provider).map (fun s => s.default_model)

/-- The process environment: `os.getenv k` is `env k` (none when unset). -/
def EnvMap : Type := String → Option String

/-- `os.getenv k d` (the default applies only when the variable is unset). -/
def envGetD (env : EnvMap) (k : String) (d : String) : String :=
  (env k).getD d

/-- `os.environ[k] = v`. -/
def envSet (env : EnvMap) (k v : String) : EnvMap :=
  fun x => if x = k then some v else env x

/-- Message of the RuntimeError for an absent/blank credential. -/
def missingCredMsg (label k : String) : String :=
  "Missing " ++ label ++ " credentials. Set " ++ k ++ "."

/-- Message of the RuntimeError for a spec that needs a key but names no
environment variable. -/
def misconfiguredMsg (label : String) : String :=
  label ++ " requires credentials but no env var is configured."

/-- ensure_credentials from bridge_agents.py (lines 117-127). -/
def ensure_credentials (env : EnvMap) (provider : String) : Except PyError (Option String) :=
  match get_spec provider with
  | .error e => .error e
  | .ok spec =>
    if spec.needs_key = false then .ok none
    else
      match spec.key_env with
      | none => .error (.runtimeError (misconfiguredMsg spec.label))
      | some k =>
        let api_key := pyStrip (envGetD env k "")
        if api_key = "" then .error (.runtimeError (missingCredMsg spec.label k))
        else .ok (some api_key)

/-- Environment with a whitespace-only OpenAI key (used to exercise the
blank-credential edge case). -/
def envSpaceKey : EnvMap :=
  fun k => if k = "OPENAI_API_KEY" then some " " else none

/-- Environment with a whitespace-padded OpenAI key. -/
def envPaddedKey : EnvMap :=
  fun k => if k = "OPENAI_API_KEY" then some " x " else none

/-- Environment with a plausible OpenAI key. -/
def envGoodKey : EnvMap :=
  fun k => if k = "OPENAI_API_KEY" then some "sk-test" else none

/-- Python `or` on optional strings: the left value is kept when it is a
non-empty string; None and "" fall through to the right value. -/
def pyOrStr (a b : Option String) : Option String :=
  match a with
  | some s => if s = "" then b else some s
  | none => b

/-- One entry of the `choices` array of an OpenAI-compatible response:
`message_content` is `choices[i]["message"]["content"]` (none when the message
object or its content is absent or null) and `text` is the legacy
`choices[i]["text"]` field. -/
structure OAIChoice where
  message_content : Option String
  text : Option String
deriving DecidableEq, Repr

/-- Response handling of OpenAICompatibleAgent.generate_response
(bridge_agents.py lines 191-199): take the first choice, read
`message.content or text`, raise when that is falsy, else return the
stripped content. -/
def openai_extract (choices : List OAIChoice) : Except PyError String :=
  match choices with
  | [] => .error (.runtimeError "Provider returned no completion choices.")
  | c :: _ =>
    match pyOrStr c.message_content c.text with
    | none => .error (.runtimeError "Provider response missing content.")
    | some content =>
      if content = "" then .error (.runtimeError "Provider response missing content.")
      else .ok (pyStrip content)

/-- One entry of the Anthropic response `content` array: the `type` field
(absent keys read as None) and the `text` field (read with default ""). -/
structure AnthContentBlock where
  btype : Option String
  btext : Option String
deriving DecidableEq, Repr

/-- Response handling of AnthropicAgent.generate_response (bridge_agents.py
lines 243-251): raise when the content array is empty; join the text of the
blocks whose type is "text"; raise when the stripped join is empty. -/
def anthropic_extract (entries : List AnthContentBlock) : Except PyError String :=
  match entries with
  | [] => .error (.runtimeError "Anthropic response missing content.")
  | _ =>
    let chunks := (entries.filter (fun e => e.btype = some "text")).map
      (fun e => e.btext.getD "")
    let combined := pyStrip (String.join chunks)
    if combined = "" then .error (.runtimeError "Anthropic response content was empty.")
    else .ok combined

/-- The reply returned by AutoGen's assistant.generate_reply: either a bare
(possibly missing) string or a dict with a content field. -/
inductive AutoGenReply where
  | asStr (s : Option String)
  | asDict (content : Option String)
deriving DecidableEq, Repr

/-- `reply.get("content") if isinstance(reply, dict) else reply`
(bridge_agents.py lines 313-316). -/
def autogenContent : AutoGenReply → Option String
  | .asDict c => c
  | .asStr s => s

/-- Response handling of AutoGenAgent.generate_response (bridge_agents.py
lines 312-319). -/
def autogen_extract (reply : AutoGenReply) : Except PyError String :=
  match autogenContent reply with
  | none => .error (.runtimeError "AutoGen response was empty.")
  | some c =>
    if c = "" then .error (.runtimeError "AutoGen response was empty.")
    else .ok (pyStrip c)

/-- Response handling of GeminiAgent.generate_response (bridge_agents.py
lines 279-281): `response.text` may be None or a string. -/
def gemini_extract (rtext : Option String) : Except PyError String :=
  match rtext with
  | none => .error (.runtimeError "Gemini response content was empty.")
  | some t =>
    if t = "" then .error (.runtimeError "Gemini response content was empty.")
    else .ok (pyStrip t)

/-- Python `str.rstrip("/")`: remove every trailing slash. -/
def rstripSlash (s : String) : String :=
  String.mk ((s.data.reverse.dropWhile (fun c => c = '/')).reverse)

/-- True when the string does not end with a slash. -/
def noTrailingSlash (s : String) : Bool :=
  match s.data.getLast? with
  | some c => if c = '/' then false else true
  | none => true

/-- `OpenAICompatibleAgent.__init__` normalizes `base_url` with rstrip("/")
(bridge_agents.py line 157); `generate_response` then POSTs to
`f"{self.base_url}/chat/completions"` (line 180). This function is the URL
that a given raw base URL produces. -/
def openai_request_url (raw_base : String) : String :=
  rstripSlash raw_base ++ "/chat/completions"

/-- `_openai_base_url_from_env` (bridge_agents.py lines 324-325). -/
def openai_base_url_from_env (env : EnvMap) (default : String) : String :=
  rstripSlash (envGetD env "OPENAI_BASE_URL" default)

/-- Python `str.lower()`, over the character list so it kernel-reduces. -/
def pyLower (s : String) : String :=
  String.mk (s.data.map Char.toLower)

/-- The constructed agent variants of bridge_agents.py. Connection parameters
are stored exactly as the corresponding `__init__` stores them; network
behaviour is abstracted. -/
inductive ChatAgent where
  | openaiCompatible (name model : String) (temperature : Rat)
      (system_prompt base_url : String) (api_key : Option String)
      (extra_headers : List (String × String))
  | anthropicAgent (name model : String) (temperature : Rat)
      (system_prompt api_key : String)
  | geminiAgent (name model : String) (temperature : Rat)
      (system_prompt api_key : String)
  | autogenAgent (name model : String) (temperature : Rat)
      (system_prompt api_key : String) (base_url : Option String)
deriving DecidableEq, Repr

/-- OpenAICompatibleAgent.__init__ (bridge_agents.py lines 146-159): stores
`base_url.rstrip("/")`; `extra_headers or {}` defaults to empty. -/
def mkOpenAICompatibleAgent (name model : String) (temperature : Rat)
    (system_prompt base_url : String) (api_key : Option String) : ChatAgent :=
  .openaiCompatible name model temperature system_prompt (rstripSlash base_url)
    api_key []

/-- create_agent from bridge_agents.py (lines 328-391). The environment reads
(`os.getenv`) are explicit; every branch mirrors the source's dispatch on the
lower-cased provider key. The trailing ValueError branch is the source's
`raise ValueError(f"Unsupported provider ...")`. -/
def create_agent (env : EnvMap) (name provider : String) (model : Option String)
    (temperature : Rat) (system_prompt : String) : Except PyError ChatAgent :=
  let provider_key := pyLower provider
  match get_spec provider_key with
  | .error e => .error e
  | .ok _ =>
    match resolve_model provider_key model with
    | .error e => .error e
    | .ok model_name =>
      if provider_key = "autogen" then
        match ensure_credentials env provider_key with
        | .error e => .error e
        | .ok api_key =>
          let base_url := pyOrStr (env "AUTOGEN_BASE_URL") (env "OPENAI_BASE_URL")
          .ok (.autogenAgent name model_name temperature system_prompt
            (api_key.getD "") base_url)
      else if provider_key = "openai" ∨ provider_key = "openrouter" ∨
          provider_key = "deepseek" then
        match ensure_credentials env provider_key with
        | .error e => .error e
        | .ok api_key =>
          let base_url :=
            if provider_key = "openai" then
              openai_base_url_from_env env "https://api.openai.com/v1"
            else if provider_key = "openrouter" then "https://openrouter.ai/api/v1"
            else "https://api.deepseek.com/v1"
          .ok (mkOpenAICompatibleAgent name model_name temperature system_prompt
            base_url api_key)
      else if provider_key = "ollama" then
        .ok (mkOpenAICompatibleAgent name model_name temperature system_prompt
          (envGetD env "OLLAMA_BASE_URL" "http://localhost:11434/v1") none)
      else if provider_key = "lmstudio" then
        .ok (mkOpenAICompatibleAgent name model_name temperature system_prompt
          (envGetD env "LMSTUDIO_BASE_URL" "http://localhost:1234/v1") none)
      else if provider_key = "anthropic" then
        match ensure_credentials env provider_key with
        | .error e => .error e
        | .ok api_key =>
          .ok (.anthropicAgent name model_name temperature system_prompt
            (api_key.getD ""))
      else if provider_key = "gemini" then
        match ensure_credentials env provider_key with
        | .error e => .error e
        | .ok api_key =>
          .ok (.geminiAgent name model_name temperature system_prompt
            (api_key.getD ""))
      else
        .error (.valueError ("Unsupported provider \x27" ++ provider ++ "\x27."))

/-- A conversation Message (backend/main.py lines 121-125). The
`datetime.now()` creation timestamp is abstracted away: it never influences
control flow. -/
structure Message where
  content : String
  sender : String
  persona : Option String := none
deriving DecidableEq, Repr

/-- ConversationRequest (backend/main.py lines 91-103). `api_keys` is an
association list standing for the optional dict. -/
structure ConversationRequest where
  persona_a : Option String := none
  persona_b : Option String := none
  provider_a : String
  provider_b : String
  model_a : Option String := none
  model_b : Option String := none
  starter_message : String
  max_rounds : Int := 30
  mem_rounds : Int := 8
  temperature_a : Rat := 7/10
  temperature_b : Rat := 7/10
  api_keys : List (String × String) := []
deriving DecidableEq, Repr

/-- PersonaConfig (backend/main.py lines 81-88). -/
structure PersonaConfig where
  name : String
  provider : String
  system_prompt : String
  temperature : Option Rat := some (7/10)
  model : Option String := none
  guidelines : List String := []
  notes : Option String := none
deriving DecidableEq, Repr

/-- The Conversation object (backend/main.py lines 128-139); session logging
paths are I/O plumbing and not modelled. -/
structure Conversation where
  request : ConversationRequest
  messages : List Message := []
  agent_a : Option ChatAgent := none
  agent_b : Option ChatAgent := none
  active : Bool := true
  conversation_id : String
deriving DecidableEq, Repr

/-- Lookup in the process-wide `conversations` dict. -/
def lookupA (reg : List (String × Conversation)) (cid : String) : Option Conversation :=
  reg.lookup cid

/-- `conversations[cid] = c`: replace an existing entry or append a new one. -/
def insertA (reg : List (String × Conversation)) (cid : String) (c : Conversation) :
    List (String × Conversation) :=
  if (reg.lookup cid).isSome then
    reg.map (fun p => if p.1 = cid then (cid, c) else p)
  else reg ++ [(cid, c)]

/-- The api_keys injection loop of Conversation.initialize_agents
(backend/main.py lines 214-224): for each provided non-blank key whose
provider resolves to a spec with an env var, write the stripped key into the
process environment; lookup failures are caught and ignored. -/
def injectKeys (env : EnvMap) (api_keys : List (String × String)) : EnvMap :=
  api_keys.foldl (fun e pk =>
    if pk.2 ≠ "" ∧ pyStrip pk.2 ≠ "" then
      match findSpec pk.1 with
      | some spec =>
        match spec.key_env with
        | some k => envSet e k (pyStrip pk.2)
        | none => e
      | none => e
    else e) env

/-- The per-side configuration resolution of Conversation.initialize_agents
(backend/main.py lines 226-278): persona settings override the request's when
they are truthy; resolve_model and get_spec may raise. -/
def resolveSide (lib : String → Option PersonaConfig) (personaKey : Option String)
    (reqProvider : String) (reqTemp : Rat) :
    Except PyError (String × Rat × String × String) :=
  let cfgOpt : Option PersonaConfig :=
    match personaKey with
    | some k => if k = "" then none else lib k
    | none => none
  match cfgOpt with
  | some cfg =>
    let provider := if cfg.provider = "" then reqProvider else cfg.provider
    let temp : Rat :=
      match cfg.temperature with
      | some t => if t = 0 then reqTemp else t
      | none => reqTemp
    (resolve_model provider cfg.model).bind (fun model =>
      (if cfg.system_prompt = "" then (get_spec provider).map (fun s => s.default_system)
       else .ok cfg.system_prompt).map (fun system => (provider, temp, model, system)))
  | none =>
    (resolve_model reqProvider none).bind (fun model =>
      ((get_spec reqProvider).map (fun s => s.default_system)).map
        (fun system => (reqProvider, reqTemp, model, system)))

/-- Result of initialize_agents: the environment after key injection, the
agent fields as the in-place mutation left them (agent_a may be set even when
agent_b construction failed), and the raised exception, if any. -/
structure InitOut where
  env : EnvMap
  agent_a : Option ChatAgent := none
  agent_b : Option ChatAgent := none
  err : Option PyError := none

/-- Conversation.initialize_agents (backend/main.py lines 202-303): inject
request-supplied keys into the environment, resolve both sides, check both
credentials, then construct agent A and agent B in order; the first raised
exception aborts the remainder. -/
def init_agents (lib : String → Option PersonaConfig) (env0 : EnvMap)
    (req : ConversationRequest) : InitOut :=
  let env := injectKeys env0 req.api_keys
  match resolveSide lib req.persona_a req.provider_a req.temperature_a with
  | .error e => { env := env, err := some e }
  | .ok (pa, ta, ma, sa) =>
    match resolveSide lib req.persona_b req.provider_b req.temperature_b with
    | .error e => { env := env, err := some e }
    | .ok (pb, tb, mb, sb) =>
      match ensure_credentials env pa with
      | .error e => { env := env, err := some e }
      | .ok _ =>
        match ensure_credentials env pb with
        | .error e => { env := env, err := some e }
        | .ok _ =>
          match create_agent env "A" pa (some ma) ta sa with
          | .error e => { env := env, err := some e }
          | .ok aA =>
            match create_agent env "B" pb (some mb) tb sb with
            | .error e => { env := env, agent_a := some aA, err := some e }
            | .ok aB => { env := env, agent_a := some aA, agent_b := some aB }

/-- HTTP error produced by create_conversation's exception handlers
(backend/main.py lines 716-721): RuntimeError becomes a 400 carrying str(e),
anything else a 500. -/
def httpOfPyError : PyError → Nat × String
  | .runtimeError m => (400, m)
  | .keyError _ => (500, "Internal server error")
  | .valueError _ => (500, "Internal server error")
  | .typeError _ => (500, "Internal server error")

/-- create_conversation (backend/main.py lines 690-721): the Conversation is
registered under conv_id BEFORE initialize_agents runs; because the registry
holds the very object that initialize_agents mutates, the entry after a
failure is the partially initialized conversation (no user message appended),
and it is not removed by the exception handlers. -/
def create_conversation (lib : String → Option PersonaConfig) (env : EnvMap)
    (reg : List (String × Conversation)) (conv_id : String) (req : ConversationRequest) :
    Except (Nat × String) (String × String × String) ×
      List (String × Conversation) × EnvMap :=
  let r := init_agents lib env req
  match r.err with
  | some e =>
    (.error (httpOfPyError e),
     insertA reg conv_id
       { request := req, messages := [], agent_a := r.agent_a, agent_b := r.agent_b,
         active := true, conversation_id := conv_id },
     r.env)
  | none =>
    (.ok (conv_id, "created", req.starter_message),
     insertA reg conv_id
       { request := req,
         messages := [{ content := req.starter_message, sender := "user", persona := none }],
         agent_a := r.agent_a, agent_b := r.agent_b, active := true,
         conversation_id := conv_id },
     r.env)

/-- Python list slicing `l[-n:]` for an arbitrary integer n: for n > 0 the
trailing min(n, len) elements, for n = 0 the whole list (since -0 is 0), and
for n < 0 the list with its first |n| elements dropped. -/
def pyLastSlice (n : Int) (l : List Message) : List Message :=
  if 0 < n then l.drop (l.length - n.toNat)
  else if n = 0 then l
  else l.drop n.natAbs

/-- The trailing n elements of a list (all of it when fewer exist): the
specification's notion of the context window. -/
def takeLast (n : Nat) (l : List Message) : List Message :=
  l.drop (l.length - n)

/-- The contextText built before each adapter call (backend/main.py lines
888-892 and 917-921): `" ".join(msg.content for msg in messages[-mem:])`. -/
def ctxOf (mem : Int) (msgs : List Message) : String :=
  String.intercalate " " ((pyLastSlice mem msgs).map Message.content)

/-- An event delivered over the observer's WebSocket: a replayed or fresh
message, a turn error (`{"type": "error"}`), the terminal
`{"type": "conversation_end"}`, or one of the bare `{"error": ...}` payloads
sent before streaming starts. -/
inductive WsEvent where
  | message (sender content : String) (persona : Option String)
  | errorData (detail : String)
  | conversationEnd
  | errorJson (detail : String)
deriving DecidableEq, Repr

/-- The streaming state of one WebSocket session: the conversation's message
list, the events successfully delivered to the observer, and the
conversation's active flag. -/
structure WsState where
  messages : List Message
  events : List WsEvent
  active : Bool
deriving DecidableEq, Repr

/-- One `websocket.send_json`: the observer accepts `cap` writes over the
whole session and the next write after that raises WebSocketDisconnect,
modelled as `none`; `cap = none` is an observer that never disconnects. -/
def sendEvent (cap : Option Nat) (events : List WsEvent) (e : WsEvent) :
    Option (List WsEvent) :=
  match cap with
  | none => some (events ++ [e])
  | some c => if events.length < c then some (events ++ [e]) else none

/-- Outcome of one agent turn: continue the loop, break out of it (handled
per-turn exception, error event delivered), or a WebSocketDisconnect
propagating out of the loop. -/
inductive TurnOut where
  | cont (s : WsState)
  | broke (s : WsState)
  | disc (s : WsState)
deriving Repr

/-- The state carried by any turn outcome. -/
def TurnOut.state : TurnOut → WsState
  | .cont s => s
  | .broke s => s
  | .disc s => s

/-- One agent turn of the conversation loop (backend/main.py lines 884-950):
build the context, call the adapter, on success append the Message and stream
it, on adapter failure stream one error event and break; a send that raises
WebSocketDisconnect aborts the handler (the except-block's own error send
fails on the dead socket, so nothing further is delivered). -/
def agentTurn (gen : String → Except PyError String) (mem : Int) (sender : String)
    (persona : Option String) (cap : Option Nat) (s : WsState) : TurnOut :=
  match gen (ctxOf mem s.messages) with
  | .error e =>
    match sendEvent cap s.events (.errorData (pyErrorStr e)) with
    | some evs => .broke { s with events := evs }
    | none => .disc s
  | .ok resp =>
    let msgs := s.messages ++ [{ content := resp, sender := sender, persona := persona }]
    match sendEvent cap s.events (.message sender resp persona) with
    | some evs => .cont { s with messages := msgs, events := evs }
    | none => .disc { s with messages := msgs }

/-- One iteration of the while-loop body of backend/main.py lines 883-950:
agent A's turn then agent B's turn, under one try/except. -/
def wsIter (genA genB : String → Except PyError String) (mem : Int)
    (personaA personaB : Option String) (cap : Option Nat) (s : WsState) : TurnOut :=
  match agentTurn genA mem "agent_a" personaA cap s with
  | .cont s1 =>
    match agentTurn genB mem "agent_b" personaB cap s1 with
    | .cont s2 => .cont s2
    | .broke s2 => .broke s2
    | .disc s2 => .disc s2
  | .broke s1 => .broke s1
  | .disc s1 => .disc s1

/-- The conversation while-loop of backend/main.py lines 883-950:
`while conversation.active and turn_counter < max_rounds`, with the counter
incremented at the start of each iteration. The fuel argument only bounds the
recursion and is chosen larger than the remaining iteration count. The second
component records whether a WebSocketDisconnect propagated. -/
def wsLoop (genA genB : String → Except PyError String) (mem maxRounds : Int)
    (personaA personaB : Option String) (cap : Option Nat)
    (fuel tc : Nat) (s : WsState) : WsState × Bool :=
  match fuel with
  | 0 => (s, false)
  | fuel2 + 1 =>
    if s.active = true ∧ (tc : Int) < maxRounds then
      match wsIter genA genB mem personaA personaB cap s with
      | .cont s2 => wsLoop genA genB mem maxRounds personaA personaB cap fuel2 (tc + 1) s2
      | .broke s2 => (s2, false)
      | .disc s2 => (s2, true)
    else (s, false)

/-- The history replay of backend/main.py lines 866-877: send every existing
Message; a WebSocketDisconnect stops the replay and the handler. -/
def replayHistory (cap : Option Nat) : List Message → List WsEvent → List WsEvent × Bool
  | [], evs => (evs, false)
  | m :: rest, evs =>
    match sendEvent cap evs (.message m.sender m.content m.persona) with
    | some evs2 => replayHistory cap rest evs2
    | none => (evs, true)

/-- The body of the websocket_conversation handler of backend/main.py (lines
850-969) for a found, active conversation: replay history, run the loop, send
conversation_end unless the observer disconnected, and - in the finally block -
set the conversation inactive. The adapters' network calls are the oracles
genA/genB. -/
def wsSession (genA genB : String → Except PyError String) (cap : Option Nat)
    (maxRounds mem : Int) (personaA personaB : Option String)
    (msgs0 : List Message) : WsState :=
  let rep := replayHistory cap msgs0 []
  let s1 : WsState := { messages := msgs0, events := rep.1, active := true }
  if rep.2 then { s1 with active := false }
  else
    let lp := wsLoop genA genB mem maxRounds personaA personaB cap
      (maxRounds.toNat + 1) 0 s1
    if lp.2 then { lp.1 with active := false }
    else
      { lp.1 with
        events := (sendEvent cap lp.1.events .conversationEnd).getD lp.1.events
        active := false }

/-- The full websocket endpoint of backend/main.py lines 850-969 over the
conversation registry: unknown id and inactive conversation answer with a bare
error payload; otherwise the session runs and the finally block writes the
terminated conversation back. -/
def websocket_conversation (genA genB : String → Except PyError String)
    (cap : Option Nat) (reg : List (String × Conversation)) (cid : String) :
    List (String × Conversation) × List WsEvent :=
  match lookupA reg cid with
  | none =>
    ((reg, (sendEvent cap [] (.errorJson "Conversation not found")).getD []))
  | some conv =>
    if conv.active = false then
      (insertA reg cid { conv with active := false },
       (sendEvent cap [] (.errorJson "Conversation is inactive")).getD [])
    else
      let final := wsSession genA genB cap conv.request.max_rounds conv.request.mem_rounds
        conv.request.persona_a conv.request.persona_b conv.messages
      (insertA reg cid { conv with messages := final.messages, active := false },
       final.events)

/-- The sender tag used by the web_gui loop. -/
def webGuiSender (isA : Bool) : String := if isA then "agent_a" else "agent_b"

/-- The message of the TypeError raised when the web_gui loop invokes the
two-argument async `generate_response(prompt, mem_rounds)` with a single
positional argument; the leading qualifier is the runtime class of the
agent. -/
def webGuiTypeErrorMsg (agentClass : String) : String :=
  agentClass ++ ".generate_response() missing 1 required positional argument: " ++
    "\x27mem_rounds\x27"

/-- The adapter invocation of the web_gui loop
(backend/web_gui/backend/main.py lines 374-376):
`run_in_executor(None, current_agent.generate_response, " ".join(context))`
calls the two-argument async method with one positional argument, so the
executor raises TypeError before any network I/O and the await re-raises it —
for every agent and every prompt, the invocation's result is this error. -/
def webGuiCallAdapter (agentClass : String) (_prompt : String) : Except PyError String :=
  .error (.typeError (webGuiTypeErrorMsg agentClass))

/-- The conversation while-loop of backend/web_gui/backend/main.py lines
360-414: the condition is `len(messages) < max_rounds * 2`, checked before
every SINGLE turn, the context is the hard-coded last 5 messages, and the
sides swap after each turn. classA/classB are the runtime class names of the
two agents; the adapter invocation is webGuiCallAdapter, whose mis-arity
TypeError makes the success branch below (kept to mirror the source text)
unreachable. -/
def webGuiLoop (classA classB : String) (maxRounds : Int)
    (personaA personaB : Option String) (cap : Option Nat)
    (fuel : Nat) (isA : Bool) (s : WsState) : WsState × Bool :=
  match fuel with
  | 0 => (s, false)
  | fuel2 + 1 =>
    if s.active = true ∧ (s.messages.length : Int) < maxRounds * 2 then
      match webGuiCallAdapter (if isA then classA else classB) (ctxOf 5 s.messages) with
      | .error e =>
        match sendEvent cap s.events (.errorData (pyErrorStr e)) with
        | some evs => ({ s with events := evs }, false)
        | none => (s, true)
      | .ok resp =>
        let s2 := { s with messages := s.messages ++
          [{ content := resp, sender := webGuiSender isA,
             persona := if isA then personaA else personaB }] }
        match sendEvent cap s2.events (.message (webGuiSender isA) resp
            (if isA then personaA else personaB)) with
        | some evs =>
          webGuiLoop classA classB maxRounds personaA personaB cap fuel2 (!isA)
            { s2 with events := evs }
        | none => (s2, true)
    else (s, false)

/-- The web_gui websocket handler body (backend/web_gui/backend/main.py lines
331-417) for a found, active conversation: replay, loop starting with side A,
then conversation_end. The web_gui handler has no finally block, so the active
flag is left as the loop left it. -/
def webGuiSession (classA classB : String) (cap : Option Nat)
    (maxRounds : Int) (personaA personaB : Option String)
    (msgs0 : List Message) : WsState :=
  let rep := replayHistory cap msgs0 []
  let s1 : WsState := { messages := msgs0, events := rep.1, active := true }
  if rep.2 then s1
  else
    let lp := webGuiLoop classA classB maxRounds personaA personaB cap
      ((maxRounds * 2).toNat + 1) true s1
    if lp.2 then lp.1
    else
      { lp.1 with events := (sendEvent cap lp.1.events .conversationEnd).getD lp.1.events }

/-- `msg.sender.upper().replace("_", " ")` from _generate_transcript_content
(backend/main.py line 192). -/
def senderLabel (s : String) : String :=
  String.mk ((s.data.map Char.toUpper).map (fun c => if c = '_' then ' ' else c))

/-- The header lines of _generate_transcript_content (backend/main.py lines
178-189); the Started timestamp text is abstracted (wall-clock only). -/
def transcript_header (conv : Conversation) : List String :=
  ["# Chat Bridge Transcript\n",
   "**Session ID:** " ++ conv.conversation_id ++ "\n",
   "**Started:**\n",
   "**Starter Message:** " ++ conv.request.starter_message ++ "\n",
   "**Provider A:** " ++ conv.request.provider_a ++ "\n",
   "**Provider B:** " ++ conv.request.provider_b ++ "\n",
   "**Temperature A:** " ++ toString conv.request.temperature_a ++ "\n",
   "**Temperature B:** " ++ toString conv.request.temperature_b ++ "\n",
   "**Max Rounds:** " ++ toString conv.request.max_rounds ++ "\n\n",
   "---\n\n",
   "## Conversation\n\n"]

/-- The three lines appended for one message (backend/main.py lines 191-198);
the per-message timestamp text is abstracted. -/
def transcript_msg_lines (i : Nat) (m : Message) : List String :=
  ["**Round " ++ toString i ++ "** - " ++ senderLabel m.sender ++ "\n\n",
   m.content ++ "\n\n",
   "---\n\n"]

/-- The message blocks of the transcript, enumerating from the given index
(the source enumerates from 1). -/
def transcript_blocks : Nat → List Message → List String
  | _, [] => []
  | i, m :: rest => transcript_msg_lines i m ++ transcript_blocks (i + 1) rest

/-- _generate_transcript_content (backend/main.py lines 176-200):
`"".join(lines)`. -/
def generate_transcript_content (conv : Conversation) : String :=
  String.join (transcript_header conv ++ transcript_blocks 1 conv.messages)

/-- get_conversation_transcript (backend/main.py lines 724-744): 404 for an
unknown id, else the generated markdown and the message count (the
timestamped download filename is abstracted). -/
def get_conversation_transcript (reg : List (String × Conversation)) (cid : String) :
    Except (Nat × String) (String × Nat) :=
  match lookupA reg cid with
  | none => .error (404, "Conversation not found")
  | some conv => .ok (generate_transcript_content conv, conv.messages.length)

/-- A conversation request for two openai-backed agents with no personas and
no supplied api keys. -/
def reqNoCred : ConversationRequest :=
  { provider_a := "openai", provider_b := "openai", starter_message := "hi" }

/-- C5 (amended): resolve_model returns the trimmed requested model whenever it
is non-blank — for any provider identifier, known or not — and otherwise
returns the registry spec's default model; but contrary to the claim it does
not "never fail": when the requested model is absent or blank and the provider
identifier is not in the registry, the get_spec lookup fails with
UnknownProvider. -/
theorem resolve_model_spec :
    (∀ p m, pyStrip m ≠ "" → resolve_model p (some m) = .ok (pyStrip m)) ∧
    (∀ p s, findSpec p = some s →
      resolve_model p none = .ok s.default_model ∧
      ∀ m, pyStrip m = "" → resolve_model p (some m) = .ok s.default_model) ∧
    (∀ p, findSpec p = none →
      resolve_model p none = .error (.keyError (unknownProviderMsg p))) := by
  refine ⟨?_, ?_, ?_⟩
  · intro p m h
    have hm : m ≠ "" := by
      intro hEq
      apply h
      rw [hEq]
      rfl
    simp [resolve_model, hm, h]
  · intro p s hp
    constructor
    · simp [resolve_model, get_spec, hp, Except.map]
    · intro m hm
      simp [resolve_model, get_spec, hp, hm, Except.map]
  · intro p hp
    simp [resolve_model, get_spec, hp, Except.map]

/-- C5 witness: concrete instances of each branch of resolve_model_spec. -/
theorem resolve_model_spec_witness :
    resolve_model "openai" (some "  custom ") = .ok "custom" ∧
    resolve_model "openai" none = .ok "gpt-4o-mini" ∧
    resolve_model "openai" (some "   ") = .ok "gpt-4o-mini" := by
  refine ⟨resolve_model_spec.1 "openai" "  custom " (by decide), ?_, ?_⟩
  · exact (resolve_model_spec.2.1 "openai" _ rfl).1
  · exact (resolve_model_spec.2.1 "openai" _ rfl).2 "   " (by decide)

/-- C5 counterexample: the claim says resolve_model "never fails, for any
provider identifier", but with an absent requested model and an identifier
outside the registry it fails with the UnknownProvider KeyError. -/
theorem resolve_model_fails_counterexample :
    resolve_model "nosuch" none =
      .error (.keyError "Unknown provider \x27nosuch\x27.") := by
  rfl

/-- C6 (amended): for every provider in the registry, ensure_credentials is a
no-op returning none when no credential is needed; fails with
MisconfiguredProvider when a credential is needed but no env var is declared;
fails with MissingCredential when the configured value is unset, empty, or —
beyond the claim's wording — consists only of whitespace; and otherwise
returns the credential trimmed of surrounding whitespace (not the raw value). -/
theorem ensure_credentials_spec :
    ∀ (env : EnvMap) (p : String) (spec : ProviderSpec), findSpec p = some spec →
      (spec.needs_key = false → ensure_credentials env p = .ok none) ∧
      (spec.needs_key = true → spec.key_env = none →
        ensure_credentials env p = .error (.runtimeError (misconfiguredMsg spec.label))) ∧
      (∀ k, spec.needs_key = true → spec.key_env = some k →
        (pyStrip (envGetD env k "") = "" →
          ensure_credentials env p = .error (.runtimeError (missingCredMsg spec.label k))) ∧
        (pyStrip (envGetD env k "") ≠ "" →
          ensure_credentials env p = .ok (some (pyStrip (envGetD env k ""))))) := by
  intro env p spec hp
  refine ⟨?_, ?_, ?_⟩
  · intro hneed
    simp [ensure_credentials, get_spec, hp, hneed]
  · intro hneed hkey
    simp [ensure_credentials, get_spec, hp, hneed, hkey]
  · intro k hneed hkey
    constructor
    · intro hblank
      simp [ensure_credentials, get_spec, hp, hneed, hkey, hblank]
    · intro hblank
      simp [ensure_credentials, get_spec, hp, hneed, hkey, hblank]

/-- C6 witness: concrete instances — ollama needs no key; openai with a set,
non-blank key returns it; openai with an unset key fails. -/
theorem ensure_credentials_spec_witness :
    ensure_credentials envGoodKey "ollama" = .ok none ∧
    ensure_credentials envGoodKey "openai" = .ok (some "sk-test") ∧
    ensure_credentials (fun _ => none) "openai" =
      .error (.runtimeError "Missing OpenAI credentials. Set OPENAI_API_KEY.") := by
  refine ⟨?_, ?_, ?_⟩
  · exact (ensure_credentials_spec envGoodKey "ollama" _ rfl).1 rfl
  · exact (((ensure_credentials_spec envGoodKey "openai" _ rfl).2.2
      "OPENAI_API_KEY" rfl rfl).2 (by decide))
  · exact (((ensure_credentials_spec (fun _ => none) "openai" _ rfl).2.2
      "OPENAI_API_KEY" rfl rfl).1 (by decide))

/-- C6 counterexample: with `OPENAI_API_KEY` set to a single space — a value
that is neither unset nor empty — the claim's "otherwise returns the
credential" branch should apply, yet the code fails with MissingCredential;
and for the padded value " x " it returns "x", not the configured value. -/
theorem ensure_credentials_counterexample :
    envSpaceKey "OPENAI_API_KEY" = some " " ∧ (" " : String) ≠ "" ∧
    ensure_credentials envSpaceKey "openai" =
      .error (.runtimeError "Missing OpenAI credentials. Set OPENAI_API_KEY.") ∧
    envPaddedKey "OPENAI_API_KEY" = some " x " ∧
    ensure_credentials envPaddedKey "openai" = .ok (some "x") ∧
    (" x " : String) ≠ "x" := by
  refine ⟨rfl, by decide, rfl, rfl, rfl, by decide⟩

/-- Helper: the head of `dropWhile p l` never satisfies `p`. -/
theorem dropWhileHeadNot {α : Type} (p : α → Bool) :
    ∀ (l : List α) (a : α), (l.dropWhile p).head? = some a → p a = false := by
  intro l
  induction l with
  | nil => intro a h; simp [List.dropWhile] at h
  | cons x xs ih =>
    intro a h
    by_cases hx : p x
    · rw [List.dropWhile_cons_of_pos hx] at h
      exact ih a h
    · rw [List.dropWhile_cons_of_neg hx] at h
      simp at h
      rw [← h]
      exact Bool.of_not_eq_true hx

/-- Helper: `dropWhile` is idempotent. -/
theorem dropWhileIdem {α : Type} (p : α → Bool) :
    ∀ l : List α, (l.dropWhile p).dropWhile p = l.dropWhile p := by
  intro l
  induction l with
  | nil => rfl
  | cons x xs ih =>
    by_cases hx : p x
    · rw [List.dropWhile_cons_of_pos hx]
      exact ih
    · rw [List.dropWhile_cons_of_neg hx, List.dropWhile_cons_of_neg hx]

/-- Helper: string append acts as list append on the character data. -/
theorem strDataAppend (a b : String) : (a ++ b).data = a.data ++ b.data := by
  cases a
  cases b
  rfl

/-- C7 (amended): every adapter either fails or returns the stripped extracted
content; the Anthropic adapter's normal return is always non-empty, while the
OpenAI-compatible, AutoGen and Gemini adapters return normally exactly when
the extracted content is a non-empty string — which may still be all
whitespace, in which case the stripped return value is the empty string. -/
theorem generate_reply_trim_spec :
    (∀ entries s, anthropic_extract entries = .ok s → s ≠ "") ∧
    (∀ c rest s, openai_extract (c :: rest) = .ok s →
      ∃ t, pyOrStr c.message_content c.text = some t ∧ t ≠ "" ∧ s = pyStrip t) ∧
    (∀ r s, autogen_extract r = .ok s →
      ∃ t, autogenContent r = some t ∧ t ≠ "" ∧ s = pyStrip t) ∧
    (∀ o s, gemini_extract o = .ok s →
      ∃ t, o = some t ∧ t ≠ "" ∧ s = pyStrip t) := by
  refine ⟨?_, ?_, ?_, ?_⟩
  · intro entries s h
    match entries with
    | [] => simp [anthropic_extract] at h
    | e :: rest =>
      by_cases hc : pyStrip (String.join
          (((e :: rest).filter (fun x => x.btype = some "text")).map
            (fun x => x.btext.getD ""))) = ""
      · simp [anthropic_extract, hc] at h
      · simp [anthropic_extract, hc] at h
        rw [← h]
        exact hc
  · intro c rest s h
    cases hp : pyOrStr c.message_content c.text with
    | none => simp [openai_extract, hp] at h
    | some t =>
      by_cases ht : t = ""
      · simp [openai_extract, hp, ht] at h
      · simp [openai_extract, hp, ht] at h
        exact ⟨t, rfl, ht, h.symm⟩
  · intro r s h
    cases hp : autogenContent r with
    | none => simp [autogen_extract, hp] at h
    | some t =>
      by_cases ht : t = ""
      · simp [autogen_extract, hp, ht] at h
      · simp [autogen_extract, hp, ht] at h
        exact ⟨t, rfl, ht, h.symm⟩
  · intro o s h
    cases o with
    | none => simp [gemini_extract] at h
    | some t =>
      by_cases ht : t = ""
      · simp [gemini_extract, ht] at h
      · simp [gemini_extract, ht] at h
        exact ⟨t, rfl, ht, h.symm⟩

/-- C7 witness: concrete successful extractions for each adapter variant. -/
theorem generate_reply_trim_spec_witness :
    (("hi" : String) ≠ "") ∧
    (∃ t, pyOrStr (some " hi ") none = some t ∧ t ≠ "" ∧ ("hi" : String) = pyStrip t) ∧
    (∃ t, autogenContent (.asDict (some " ok ")) = some t ∧ t ≠ "" ∧
      ("ok" : String) = pyStrip t) ∧
    (∃ t, (some " g " : Option String) = some t ∧ t ≠ "" ∧ ("g" : String) = pyStrip t) := by
  refine ⟨?_, ?_, ?_, ?_⟩
  · exact generate_reply_trim_spec.1 [{ btype := some "text", btext := some " hi " }] "hi" rfl
  · exact generate_reply_trim_spec.2.1 { message_content := some " hi ", text := none } [] "hi" rfl
  · exact generate_reply_trim_spec.2.2.1 (.asDict (some " ok ")) "ok" rfl
  · exact generate_reply_trim_spec.2.2.2 (some " g ") "g" rfl

/-- C7 counterexample: with whitespace-only provider content the
OpenAI-compatible, AutoGen and Gemini adapters return normally with the empty
string, contradicting "whenever generateReply returns normally, the returned
string is non-empty". -/
theorem generate_reply_empty_counterexample :
    openai_extract [{ message_content := some " ", text := none }] = .ok "" ∧
    autogen_extract (.asDict (some " ")) = .ok "" ∧
    gemini_extract (some " ") = .ok "" := by
  refine ⟨rfl, rfl, rfl⟩

/-- C10: the OpenAI-compatible adapter's constructor strips every trailing
slash from the base URL (as does the environment-override helper), so the
request URL is exactly the normalized base followed by "/chat/completions"
with a single slash separator, and trailing slashes on the configured base
URL do not change the request URL. -/
theorem openai_url_normalization (raw : String) (env : EnvMap) (d : String) :
    noTrailingSlash (rstripSlash raw) = true ∧
    openai_request_url raw = rstripSlash raw ++ "/chat/completions" ∧
    openai_request_url (raw ++ "/") = openai_request_url raw ∧
    rstripSlash (rstripSlash raw) = rstripSlash raw ∧
    openai_base_url_from_env env d = rstripSlash (envGetD env "OPENAI_BASE_URL" d) := by
  have hidem : rstripSlash (rstripSlash raw) = rstripSlash raw := by
    unfold rstripSlash
    show String.mk _ = _
    congr 1
    rw [List.reverse_reverse]
    rw [dropWhileIdem]
  refine ⟨?_, rfl, ?_, hidem, rfl⟩
  · unfold noTrailingSlash rstripSlash
    show (match (((raw.data.reverse.dropWhile (fun c => c = '/')).reverse).getLast?) with
      | some c => if c = '/' then false else true
      | none => true) = true
    rw [List.getLast?_reverse]
    cases hh : (raw.data.reverse.dropWhile (fun c => c = '/')).head? with
    | none => rfl
    | some c =>
      have hc := dropWhileHeadNot (fun c => c = '/') raw.data.reverse c hh
      simp at hc
      simp [hc]
  · unfold openai_request_url
    congr 1
    unfold rstripSlash
    congr 1
    rw [strDataAppend]
    show ((raw.data ++ ['/']).reverse.dropWhile (fun c => c = '/')).reverse = _
    rw [List.reverse_append]
    show ((('/' :: []) ++ raw.data.reverse).dropWhile (fun c => c = '/')).reverse = _
    rw [List.singleton_append, List.dropWhile_cons_of_pos (by simp)]

/-- Helper: get_spec succeeds exactly on registry lookups. -/
theorem getSpecOkIff (p : String) (s : ProviderSpec) :
    get_spec p = .ok s ↔ findSpec p = some s := by
  unfold get_spec
  cases hf : findSpec p <;> simp

/-- Helper: a successful registry lookup means the key is one of the eight
catalog identifiers. -/
theorem findSpecKeys (p : String) (s : ProviderSpec) (h : findSpec p = some s) :
    p = "openai" ∨ p = "anthropic" ∨ p = "gemini" ∨ p = "deepseek" ∨
    p = "openrouter" ∨ p = "ollama" ∨ p = "lmstudio" ∨ p = "autogen" := by
  simp only [findSpec, PROVIDERS, List.lookup] at h
  repeat' split at h
  all_goals simp_all

/-- Helper: get_spec only ever fails with the UnknownProvider KeyError. -/
theorem getSpecErrorShape (p : String) (e : PyError) (h : get_spec p = .error e) :
    e = .keyError (unknownProviderMsg p) := by
  unfold get_spec at h
  cases hf : findSpec p with
  | some s => rw [hf] at h; exact absurd h (by simp)
  | none => rw [hf] at h; exact (Except.error.inj h).symm

/-- Helper: for a provider in the registry, resolve_model always succeeds. -/
theorem resolveModelOkOfSpec (p : String) (s : ProviderSpec) (model : Option String)
    (h : findSpec p = some s) : ∃ v, resolve_model p model = .ok v := by
  cases model with
  | none => exact ⟨s.default_model, by simp [resolve_model, get_spec, h, Except.map]⟩
  | some m =>
    by_cases hm : m ≠ "" ∧ pyStrip m ≠ ""
    · exact ⟨pyStrip m, by simp only [resolve_model, if_pos hm]⟩
    · refine ⟨s.default_model, ?_⟩
      simp only [resolve_model]
      rw [if_neg hm]
      simp [get_spec, h, Except.map]

/-- Helper: ensure_credentials only ever fails with a KeyError or a
RuntimeError, never a ValueError. -/
theorem ensureCredErrorShape (env : EnvMap) (p : String) (e : PyError)
    (h : ensure_credentials env p = .error e) :
    (∃ m, e = .keyError m) ∨ (∃ m, e = .runtimeError m) := by
  unfold ensure_credentials at h
  cases hs : get_spec p with
  | error e2 =>
    rw [hs] at h
    have he : e2 = e := Except.error.inj h
    rw [← he]
    exact Or.inl ⟨unknownProviderMsg p, getSpecErrorShape p e2 hs⟩
  | ok spec =>
    rw [hs] at h
    by_cases hk : spec.needs_key = false
    · simp [hk] at h
    · cases hke : spec.key_env with
      | none =>
        simp [hk, hke] at h
        exact Or.inr ⟨misconfiguredMsg spec.label, h.symm⟩
      | some k =>
        by_cases hblank : pyStrip (envGetD env k "") = ""
        · simp [hk, hke, hblank] at h
          exact Or.inr ⟨missingCredMsg spec.label k, h.symm⟩
        · simp [hk, hke, hblank] at h

/-- C8 (amended): for an identifier whose lower-cased form is not in the
catalog, create_agent fails with the UnknownProvider KeyError raised by the
get_spec lookup — not with the UnsupportedProvider ValueError, whose branch is
unreachable (create_agent never returns a ValueError for any input); and for
the credentialed known providers ensure_credentials is consulted before
construction and its failures are propagated unchanged. -/
theorem create_agent_error_spec :
    (∀ (env : EnvMap) (name p : String) (model : Option String) (t : Rat) (sys : String),
      findSpec (pyLower p) = none →
      create_agent env name p model t sys =
        .error (.keyError (unknownProviderMsg (pyLower p)))) ∧
    (∀ (env : EnvMap) (name p : String) (model : Option String) (t : Rat) (sys m : String),
      create_agent env name p model t sys ≠ .error (.valueError m)) ∧
    (∀ (env : EnvMap) (name p : String) (model : Option String) (t : Rat) (sys : String)
      (e : PyError),
      (pyLower p = "openai" ∨ pyLower p = "openrouter" ∨ pyLower p = "deepseek" ∨
       pyLower p = "anthropic" ∨ pyLower p = "gemini" ∨ pyLower p = "autogen") →
      ensure_credentials env (pyLower p) = .error e →
      create_agent env name p model t sys = .error e) := by
  refine ⟨?_, ?_, ?_⟩
  · intro env name p model t sys h
    simp [create_agent, get_spec, h]
  · intro env name p model t sys m h
    simp only [create_agent] at h
    cases hspec : get_spec (pyLower p) with
    | error e =>
      rw [hspec] at h
      rw [getSpecErrorShape _ _ hspec] at h
      simp at h
    | ok spec =>
      rw [hspec] at h
      have hfind : findSpec (pyLower p) = some spec := (getSpecOkIff _ _).1 hspec
      obtain ⟨v, hres⟩ := resolveModelOkOfSpec _ spec model hfind
      rw [hres] at h
      rcases findSpecKeys _ _ hfind with hx|hx|hx|hx|hx|hx|hx|hx
      · simp only [hx] at h
        simp at h
        cases hcred : ensure_credentials env "openai" with
        | error e2 =>
          rw [hcred] at h
          simp at h
          rcases ensureCredErrorShape _ _ _ hcred with ⟨mm, hmm⟩ | ⟨mm, hmm⟩ <;>
            simp [hmm] at h
        | ok k =>
          rw [hcred] at h
          simp at h
      · simp only [hx] at h
        simp at h
        cases hcred : ensure_credentials env "anthropic" with
        | error e2 =>
          rw [hcred] at h
          simp at h
          rcases ensureCredErrorShape _ _ _ hcred with ⟨mm, hmm⟩ | ⟨mm, hmm⟩ <;>
            simp [hmm] at h
        | ok k =>
          rw [hcred] at h
          simp at h
      · simp only [hx] at h
        simp at h
        cases hcred : ensure_credentials env "gemini" with
        | error e2 =>
          rw [hcred] at h
          simp at h
          rcases ensureCredErrorShape _ _ _ hcred with ⟨mm, hmm⟩ | ⟨mm, hmm⟩ <;>
            simp [hmm] at h
        | ok k =>
          rw [hcred] at h
          simp at h
      · simp only [hx] at h
        simp at h
        cases hcred : ensure_credentials env "deepseek" with
        | error e2 =>
          rw [hcred] at h
          simp at h
          rcases ensureCredErrorShape _ _ _ hcred with ⟨mm, hmm⟩ | ⟨mm, hmm⟩ <;>
            simp [hmm] at h
        | ok k =>
          rw [hcred] at h
          simp at h
      · simp only [hx] at h
        simp at h
        cases hcred : ensure_credentials env "openrouter" with
        | error e2 =>
          rw [hcred] at h
          simp at h
          rcases ensureCredErrorShape _ _ _ hcred with ⟨mm, hmm⟩ | ⟨mm, hmm⟩ <;>
            simp [hmm] at h
        | ok k =>
          rw [hcred] at h
          simp at h
      · simp only [hx] at h
        simp at h
      · simp only [hx] at h
        simp at h
      · simp only [hx] at h
        simp at h
        cases hcred : ensure_credentials env "autogen" with
        | error e2 =>
          rw [hcred] at h
          simp at h
          rcases ensureCredErrorShape _ _ _ hcred with ⟨mm, hmm⟩ | ⟨mm, hmm⟩ <;>
            simp [hmm] at h
        | ok k =>
          rw [hcred] at h
          simp at h
  · intro env name p model t sys e hdisj hcred
    have hfind : ∃ s, findSpec (pyLower p) = some s := by
      rcases hdisj with hx|hx|hx|hx|hx|hx <;> rw [hx] <;> exact ⟨_, rfl⟩
    obtain ⟨spec, hfind⟩ := hfind
    obtain ⟨v, hres⟩ := resolveModelOkOfSpec _ spec model hfind
    simp only [create_agent]
    rw [show get_spec (pyLower p) = .ok spec by simp [get_spec, hfind]]
    rw [hres]
    rcases hdisj with hx|hx|hx|hx|hx|hx <;> rw [hx] at hcred ⊢ <;> simp [hcred]

/-- C8 witness: concrete instances of the three parts of
create_agent_error_spec. -/
theorem create_agent_error_spec_witness :
    create_agent (fun _ => none) "A" "nope" none 1 "sys" =
      .error (.keyError "Unknown provider \x27nope\x27.") ∧
    create_agent (fun _ => none) "A" "x" none 1 "sys" ≠
      .error (.valueError "boom") ∧
    create_agent (fun _ => none) "A" "openai" none 1 "sys" =
      .error (.runtimeError "Missing OpenAI credentials. Set OPENAI_API_KEY.") := by
  refine ⟨create_agent_error_spec.1 (fun _ => none) "A" "nope" none 1 "sys" rfl,
    create_agent_error_spec.2.1 (fun _ => none) "A" "x" none 1 "sys" "boom",
    create_agent_error_spec.2.2 (fun _ => none) "A" "openai" none 1 "sys" _
      (Or.inl rfl) rfl⟩

/-- C8 counterexample: for the unknown identifier "Frobnicator" create_agent
fails with the UnknownProvider KeyError from get_spec, not with the
UnsupportedProvider ValueError the claim names. -/
theorem create_agent_unknown_counterexample :
    create_agent (fun _ => none) "A" "Frobnicator" none 1 "sys" =
      .error (.keyError "Unknown provider \x27frobnicator\x27.") ∧
    (Except.error (PyError.keyError "Unknown provider \x27frobnicator\x27.") :
        Except PyError ChatAgent) ≠
      .error (.valueError "Unsupported provider \x27Frobnicator\x27.") := by
  refine ⟨rfl, by simp⟩

/-- Helper: a list is a prefix of itself. -/
theorem isPrefixRefl {α : Type} (l : List α) : l <+: l := ⟨[], List.append_nil l⟩

/-- Helper: a list is a prefix of itself extended on the right. -/
theorem isPrefixAppend {α : Type} (l t : List α) : l <+: l ++ t := ⟨t, rfl⟩

/-- Helper: looking up the key just written by insertA returns the new value. -/
theorem lookupInsertA (reg : List (String × Conversation)) (cid : String)
    (c : Conversation) : lookupA (insertA reg cid c) cid = some c := by
  unfold insertA lookupA
  by_cases h : (reg.lookup cid).isSome = true
  · rw [if_pos h]
    induction reg with
    | nil => simp [List.lookup] at h
    | cons p rest ih =>
      by_cases hp : p.1 = cid
      · rw [List.map_cons, if_pos hp]
        simp [List.lookup]
      · have hne : (cid == p.1) = false := by
          simp only [beq_eq_false_iff_ne, ne_eq]
          intro hcon
          exact hp hcon.symm
        rw [List.map_cons, if_neg hp]
        simp only [List.lookup, hne]
        apply ih
        simp only [List.lookup, hne] at h
        exact h
  · rw [if_neg h]
    induction reg with
    | nil => simp [List.lookup]
    | cons p rest ih =>
      have hne : (cid == p.1) = false := by
        by_contra hcon
        simp only [Bool.not_eq_false, beq_iff_eq] at hcon
        simp [List.lookup, hcon] at h
      rw [List.cons_append]
      simp only [List.lookup, hne]
      apply ih
      intro hcon
      apply h
      simp only [List.lookup, hne]
      exact hcon

/-- C1 (amended): when agent construction fails, create_conversation fails
(configuration faults as a client error, others as a server error) and the
initial user Message is never appended — but, contrary to the claim, the
ConversationState is written into the process-wide registry BEFORE agent
construction and stays registered after the failure, with an empty message
history, active = true, and the agent fields as the partial initialization
left them. -/
theorem create_conversation_stores_on_failure
    (lib : String → Option PersonaConfig) (env : EnvMap)
    (reg : List (String × Conversation)) (cid : String) (req : ConversationRequest)
    (e : PyError) (h : (init_agents lib env req).err = some e) :
    (create_conversation lib env reg cid req).1 = .error (httpOfPyError e) ∧
    lookupA (create_conversation lib env reg cid req).2.1 cid =
      some { request := req, messages := [], agent_a := (init_agents lib env req).agent_a,
             agent_b := (init_agents lib env req).agent_b, active := true,
             conversation_id := cid } := by
  constructor
  · simp only [create_conversation]
    rw [h]
  · simp only [create_conversation]
    rw [h]
    exact lookupInsertA reg cid _

/-- C1 witness: with no credentials configured, an openai/openai request makes
init_agents fail with MissingCredential, create_conversation returns a 400,
and the registry still receives the conversation entry. -/
theorem create_conversation_stores_on_failure_witness :
    (create_conversation (fun _ => none) (fun _ => none) [] "conv_x" reqNoCred).1 =
      .error (httpOfPyError (.runtimeError "Missing OpenAI credentials. Set OPENAI_API_KEY.")) ∧
    lookupA (create_conversation (fun _ => none) (fun _ => none) [] "conv_x" reqNoCred).2.1
        "conv_x" =
      some { request := reqNoCred, messages := [],
             agent_a := (init_agents (fun _ => none) (fun _ => none) reqNoCred).agent_a,
             agent_b := (init_agents (fun _ => none) (fun _ => none) reqNoCred).agent_b,
             active := true, conversation_id := "conv_x" } :=
  create_conversation_stores_on_failure (fun _ => none) (fun _ => none) [] "conv_x"
    reqNoCred (.runtimeError "Missing OpenAI credentials. Set OPENAI_API_KEY.") rfl

/-- C1 counterexample: the claim says the registry is unchanged when agent
construction fails; starting from the empty registry, a request whose
credentials are missing yields an error response AND a registry that now
contains the conversation entry. -/
theorem create_conversation_registry_changed_counterexample :
    (create_conversation (fun _ => none) (fun _ => none) [] "conv_x" reqNoCred).1 =
      .error (400, "Missing OpenAI credentials. Set OPENAI_API_KEY.") ∧
    (create_conversation (fun _ => none) (fun _ => none) [] "conv_x" reqNoCred).2.1 =
      [("conv_x", { request := reqNoCred, messages := [], agent_a := none,
                    agent_b := none, active := true, conversation_id := "conv_x" })] ∧
    ([("conv_x", { request := reqNoCred, messages := [], agent_a := none,
                   agent_b := none, active := true, conversation_id := "conv_x" })] :
        List (String × Conversation)) ≠ [] := by
  refine ⟨rfl, rfl, by simp⟩

/-- C2 (amended): in the primary backend (backend/main.py), whose loop checks
`turn_counter < max_rounds` once per A-then-B pair, a conversation with
maxRounds = 1 and two succeeding adapters produces exactly the side-A Message
then the side-B Message in addition to the original user Message — the pair in
progress finishes its B turn — and then the conversation_end event. (The
web_gui variant checks mid-pair and stops after the A turn; see the
counterexample.) -/
theorem max_rounds_one_two_messages (fA fB : String → String) (mem : Int)
    (pa pb : Option String) (starter : String) :
    wsSession (fun c => .ok (fA c)) (fun c => .ok (fB c)) none 1 mem pa pb
      [{ content := starter, sender := "user", persona := none }] =
    { messages := [{ content := starter, sender := "user", persona := none },
        { content := fA (ctxOf mem [{ content := starter, sender := "user", persona := none }]),
          sender := "agent_a", persona := pa },
        { content := fB (ctxOf mem
            [{ content := starter, sender := "user", persona := none },
             { content := fA (ctxOf mem
                 [{ content := starter, sender := "user", persona := none }]),
               sender := "agent_a", persona := pa }]),
          sender := "agent_b", persona := pb }],
      events := [.message "user" starter none,
        .message "agent_a"
          (fA (ctxOf mem [{ content := starter, sender := "user", persona := none }])) pa,
        .message "agent_b"
          (fB (ctxOf mem
            [{ content := starter, sender := "user", persona := none },
             { content := fA (ctxOf mem
                 [{ content := starter, sender := "user", persona := none }]),
               sender := "agent_a", persona := pa }])) pb,
        .conversationEnd],
      active := false } ∧
    ((wsSession (fun c => .ok (fA c)) (fun c => .ok (fB c)) none 1 mem pa pb
        [{ content := starter, sender := "user", persona := none }]).messages.filter
      (fun m => m.sender = "agent_a" ∨ m.sender = "agent_b")).length = 2 := by
  exact ⟨rfl, rfl⟩

/-- C2 counterexample: in the web_gui variant a maxRounds = 1 conversation
with two OpenAI-compatible agents produces ZERO agent-authored Messages, not
2: the loop's first adapter invocation raises the mis-arity TypeError (the
adapters themselves are never reached, let alone fail), so the observer gets
one error event and conversation_end, and the history keeps only the user
Message. -/
theorem web_gui_max_rounds_one_counterexample :
    (webGuiSession "OpenAICompatibleAgent" "OpenAICompatibleAgent" none 1 none none
        [{ content := "hi", sender := "user", persona := none }]).messages =
      [{ content := "hi", sender := "user", persona := none }] ∧
    ((webGuiSession "OpenAICompatibleAgent" "OpenAICompatibleAgent" none 1 none none
        [{ content := "hi", sender := "user", persona := none }]).messages.filter
      (fun m => m.sender = "agent_a" ∨ m.sender = "agent_b")).length = 0 ∧
    (webGuiSession "OpenAICompatibleAgent" "OpenAICompatibleAgent" none 1 none none
        [{ content := "hi", sender := "user", persona := none }]).events =
      [.message "user" "hi" none,
       .errorData (webGuiTypeErrorMsg "OpenAICompatibleAgent"),
       .conversationEnd] := by
  exact ⟨rfl, rfl, rfl⟩

/-- C3: when the side-A adapter fails on the first turn, the observer receives
exactly one error event followed by conversation_end, no agent-authored
Message is appended, and side B's adapter is never consulted (the result is
the same for every genB). -/
theorem side_a_failure_aborts (err : PyError) (genB : String → Except PyError String)
    (mem maxRounds : Int) (pa pb : Option String) (starter : String)
    (h : 0 < maxRounds) :
    wsSession (fun _ => .error err) genB none maxRounds mem pa pb
      [{ content := starter, sender := "user", persona := none }] =
    { messages := [{ content := starter, sender := "user", persona := none }],
      events := [.message "user" starter none, .errorData (pyErrorStr err),
        .conversationEnd],
      active := false } := by
  have hcond : (((0 : Nat) : Int) < maxRounds) := by exact_mod_cast h
  simp [wsSession, replayHistory, sendEvent, wsLoop, wsIter, agentTurn, hcond, h]

/-- C3 witness: a concrete failing side-A adapter with maxRounds = 3. -/
theorem side_a_failure_aborts_witness :
    wsSession (fun _ => .error (.runtimeError "boom")) (fun _ => .ok "B1") none 3 8
      none none [{ content := "hi", sender := "user", persona := none }] =
    { messages := [{ content := "hi", sender := "user", persona := none }],
      events := [.message "user" "hi" none, .errorData "boom", .conversationEnd],
      active := false } :=
  side_a_failure_aborts (.runtimeError "boom") (fun _ => .ok "B1") 8 3 none none "hi"
    (by decide)

/-- C4 (amended): for memoryWindow >= 1 the contextText is exactly the
single-space join of the trailing memoryWindow Messages (all of them when
fewer exist), oldest to newest; but for memoryWindow = 0 the negative-index
slice messages[-0:] is the ENTIRE history, not the empty window the claim's
"exactly the trailing memoryWindow Messages" demands. -/
theorem context_window_spec :
    (∀ (mem : Int) (msgs : List Message), 1 ≤ mem →
      ctxOf mem msgs =
        String.intercalate " " ((takeLast mem.toNat msgs).map Message.content)) ∧
    (∀ msgs : List Message,
      ctxOf 0 msgs = String.intercalate " " (msgs.map Message.content)) := by
  constructor
  · intro mem msgs h
    have h0 : (0 : Int) < mem := h
    unfold ctxOf pyLastSlice takeLast
    rw [if_pos h0]
  · intro msgs
    unfold ctxOf pyLastSlice
    norm_num

/-- C4 witness: with memoryWindow = 2 and 5 existing Messages the context is
the contents of the last two, oldest first, single-space joined. -/
theorem context_window_spec_witness :
    ((1 : Int) ≤ 2) ∧
    ctxOf 2 [{ content := "m1", sender := "user", persona := none },
      { content := "m2", sender := "agent_a", persona := none },
      { content := "m3", sender := "agent_b", persona := none },
      { content := "m4", sender := "agent_a", persona := none },
      { content := "m5", sender := "agent_b", persona := none }] =
      String.intercalate " " ((takeLast (2 : Int).toNat
        [{ content := "m1", sender := "user", persona := none },
         { content := "m2", sender := "agent_a", persona := none },
         { content := "m3", sender := "agent_b", persona := none },
         { content := "m4", sender := "agent_a", persona := none },
         { content := "m5", sender := "agent_b", persona := none }]).map Message.content) ∧
    ctxOf 2 [{ content := "m1", sender := "user", persona := none },
      { content := "m2", sender := "agent_a", persona := none },
      { content := "m3", sender := "agent_b", persona := none },
      { content := "m4", sender := "agent_a", persona := none },
      { content := "m5", sender := "agent_b", persona := none }] = "m4 m5" := by
  refine ⟨by decide, context_window_spec.1 2 _ (by decide), by decide⟩

/-- C4 counterexample: with memoryWindow = 0 and one existing Message, the
code passes the whole history ("hello"), while the claimed trailing-0 window
would be the empty join "". -/
theorem context_window_zero_counterexample :
    ctxOf 0 [{ content := "hello", sender := "user", persona := none }] = "hello" ∧
    ctxOf 0 [{ content := "hello", sender := "user", persona := none }] ≠
      String.intercalate " " ((takeLast 0
        [{ content := "hello", sender := "user", persona := none }]).map
          Message.content) := by
  refine ⟨rfl, by decide⟩

/-- Helper: one agent turn only ever appends to the message history. -/
theorem agentTurnMsgs (gen : String → Except PyError String) (mem : Int)
    (sd : String) (per : Option String) (cap : Option Nat) (s : WsState) :
    s.messages <+: (agentTurn gen mem sd per cap s).state.messages := by
  unfold agentTurn
  cases hg : gen (ctxOf mem s.messages) with
  | error e =>
    dsimp only
    cases hs : sendEvent cap s.events (.errorData (pyErrorStr e)) with
    | some evs => dsimp only [TurnOut.state]; exact isPrefixRefl _
    | none => dsimp only [TurnOut.state]; exact isPrefixRefl _
  | ok resp =>
    dsimp only
    cases hs : sendEvent cap s.events (.message sd resp per) with
    | some evs => dsimp only [TurnOut.state]; exact isPrefixAppend _ _
    | none => dsimp only [TurnOut.state]; exact isPrefixAppend _ _

/-- Helper: one loop iteration only ever appends to the message history. -/
theorem wsIterMsgs (genA genB : String → Except PyError String) (mem : Int)
    (pa pb : Option String) (cap : Option Nat) (s : WsState) :
    s.messages <+: (wsIter genA genB mem pa pb cap s).state.messages := by
  unfold wsIter
  have h1 := agentTurnMsgs genA mem "agent_a" pa cap s
  cases hA : agentTurn genA mem "agent_a" pa cap s with
  | cont s1 =>
    rw [hA] at h1
    dsimp only [TurnOut.state] at h1
    dsimp only
    have h2 := agentTurnMsgs genB mem "agent_b" pb cap s1
    cases hB : agentTurn genB mem "agent_b" pb cap s1 with
    | cont s2 =>
      rw [hB] at h2
      dsimp only [TurnOut.state] at h2 ⊢
      exact h1.trans h2
    | broke s2 =>
      rw [hB] at h2
      dsimp only [TurnOut.state] at h2 ⊢
      exact h1.trans h2
    | disc s2 =>
      rw [hB] at h2
      dsimp only [TurnOut.state] at h2 ⊢
      exact h1.trans h2
  | broke s1 =>
    rw [hA] at h1
    dsimp only [TurnOut.state] at h1 ⊢
    exact h1
  | disc s1 =>
    rw [hA] at h1
    dsimp only [TurnOut.state] at h1 ⊢
    exact h1

/-- Helper: the conversation loop only ever appends to the message history. -/
theorem wsLoopMsgs (genA genB : String → Except PyError String) (mem maxR : Int)
    (pa pb : Option String) (cap : Option Nat) :
    ∀ (fuel tc : Nat) (s : WsState),
      s.messages <+: (wsLoop genA genB mem maxR pa pb cap fuel tc s).1.messages := by
  intro fuel
  induction fuel with
  | zero => intro tc s; exact isPrefixRefl _
  | succ f ih =>
    intro tc s
    simp only [wsLoop]
    by_cases hc : s.active = true ∧ (tc : Int) < maxR
    · rw [if_pos hc]
      have h1 := wsIterMsgs genA genB mem pa pb cap s
      cases hI : wsIter genA genB mem pa pb cap s with
      | cont s2 => rw [hI] at h1; exact h1.trans (ih (tc + 1) s2)
      | broke s2 => rw [hI] at h1; exact h1
      | disc s2 => rw [hI] at h1; exact h1
    · rw [if_neg hc]

/-- Helper: a whole session only ever appends to the message history. -/
theorem wsSessionMsgs (genA genB : String → Except PyError String) (cap : Option Nat)
    (maxR mem : Int) (pa pb : Option String) (msgs0 : List Message) :
    msgs0 <+: (wsSession genA genB cap maxR mem pa pb msgs0).messages := by
  simp only [wsSession]
  by_cases h1 : (replayHistory cap msgs0 []).2 = true
  · rw [if_pos h1]
  · rw [if_neg h1]
    have hl := wsLoopMsgs genA genB mem maxR pa pb cap (maxR.toNat + 1) 0
      { messages := msgs0, events := (replayHistory cap msgs0 []).1, active := true }
    by_cases h2 : (wsLoop genA genB mem maxR pa pb cap (maxR.toNat + 1) 0
        { messages := msgs0, events := (replayHistory cap msgs0 []).1,
          active := true }).2 = true
    · rw [if_pos h2]
      exact hl
    · rw [if_neg h2]
      exact hl

/-- Helper: folding string concatenation concatenates the character data. -/
theorem strFoldlData : ∀ (l : List String) (acc : String),
    (l.foldl (fun r s => r ++ s) acc).data = acc.data ++ (l.map String.data).flatten := by
  intro l
  induction l with
  | nil => intro acc; simp
  | cons x xs ih =>
    intro acc
    simp only [List.foldl_cons, List.map_cons, List.flatten_cons]
    rw [ih (acc ++ x), strDataAppend, List.append_assoc]

/-- Helper: the data of a joined string list is the join of the data lists. -/
theorem strJoinData (l : List String) :
    (String.join l).data = (l.map String.data).flatten := by
  show (l.foldl (fun r s => r ++ s) "").data = (l.map String.data).flatten
  rw [strFoldlData]
  rfl

/-- Helper: a member of a string list is an infix of the joined string. -/
theorem memJoinInfix (l : List String) (x : String) (hx : x ∈ l) :
    x.data <:+: (String.join l).data := by
  obtain ⟨s1, t1, rfl⟩ := List.append_of_mem hx
  refine ⟨((s1.map String.data).flatten), ((t1.map String.data).flatten), ?_⟩
  rw [strJoinData]
  simp [List.flatten_append]

/-- Helper: every message's content line is one of the transcript block
lines. -/
theorem blocksContentMem : ∀ (i : Nat) (msgs : List Message) (m : Message),
    m ∈ msgs → (m.content ++ "\n\n") ∈ transcript_blocks i msgs := by
  intro i msgs
  induction msgs generalizing i with
  | nil => intro m hm; cases hm
  | cons x xs ih =>
    intro m hm
    cases hm with
    | head => simp [transcript_blocks, transcript_msg_lines]
    | tail _ hm2 =>
      simp only [transcript_blocks]
      exact List.mem_append_right _ (ih (i + 1) m hm2)

/-- Helper: every message's content appears verbatim inside the generated
transcript markdown. -/
theorem contentInfixTranscript (conv : Conversation) (m : Message)
    (hm : m ∈ conv.messages) :
    m.content.data <:+: (generate_transcript_content conv).data := by
  have h1 : (m.content ++ "\n\n") ∈
      transcript_header conv ++ transcript_blocks 1 conv.messages :=
    List.mem_append_right _ (blocksContentMem 1 conv.messages m hm)
  have h2 := memJoinInfix _ _ h1
  refine List.IsInfix.trans ?_ h2
  refine ⟨[], "\n\n".data, ?_⟩
  rw [List.nil_append, ← strDataAppend]

/-- C9: observer disconnect halts the conversation without losing history:
(1) a session only appends to the message history, so every Message appended
before a disconnect remains; (2) for any registered conversation the endpoint
leaves behind a registry entry with active = false whose history extends the
original; (3) once the observer's capacity is exhausted (the next send
raises), the loop delivers no further event and appends at most the one
in-flight turn's Message before stopping; (4) the transcript endpoint returns
the full stored history of a registered conversation — every stored Message's
content occurs verbatim in the returned markdown. -/
theorem observer_disconnect_halts :
    (∀ (genA genB : String → Except PyError String) (cap : Option Nat) (maxR mem : Int)
      (pa pb : Option String) (msgs0 : List Message),
      msgs0 <+: (wsSession genA genB cap maxR mem pa pb msgs0).messages) ∧
    (∀ (genA genB : String → Except PyError String) (cap : Option Nat)
      (reg : List (String × Conversation)) (cid : String) (conv : Conversation),
      lookupA reg cid = some conv →
      ∃ conv2, lookupA (websocket_conversation genA genB cap reg cid).1 cid = some conv2 ∧
        conv2.active = false ∧ conv.messages <+: conv2.messages) ∧
    (∀ (genA genB : String → Except PyError String) (mem maxR : Int)
      (pa pb : Option String) (c fuel tc : Nat) (s : WsState), c ≤ s.events.length →
      (wsLoop genA genB mem maxR pa pb (some c) fuel tc s).1.events = s.events ∧
      (wsLoop genA genB mem maxR pa pb (some c) fuel tc s).1.messages.length ≤
        s.messages.length + 1) ∧
    (∀ (reg : List (String × Conversation)) (cid : String) (conv : Conversation),
      lookupA reg cid = some conv →
      get_conversation_transcript reg cid =
        .ok (generate_transcript_content conv, conv.messages.length) ∧
      ∀ m ∈ conv.messages,
        m.content.data <:+: (generate_transcript_content conv).data) := by
  refine ⟨?_, ?_, ?_, ?_⟩
  · intro genA genB cap maxR mem pa pb msgs0
    exact wsSessionMsgs genA genB cap maxR mem pa pb msgs0
  · intro genA genB cap reg cid conv hlook
    simp only [websocket_conversation, hlook]
    by_cases hact : conv.active = false
    · rw [if_pos hact]
      exact ⟨{ conv with active := false }, lookupInsertA reg cid _, rfl, isPrefixRefl _⟩
    · rw [if_neg hact]
      refine ⟨_, lookupInsertA reg cid _, rfl, ?_⟩
      exact wsSessionMsgs genA genB cap conv.request.max_rounds conv.request.mem_rounds
        conv.request.persona_a conv.request.persona_b conv.messages
  · intro genA genB mem maxR pa pb c fuel tc s hcap
    have hnot : ¬ (s.events.length < c) := Nat.not_lt.mpr hcap
    cases fuel with
    | zero => exact ⟨rfl, Nat.le_succ _⟩
    | succ f =>
      simp only [wsLoop]
      by_cases hc : s.active = true ∧ (tc : Int) < maxR
      · rw [if_pos hc]
        simp only [wsIter, agentTurn, sendEvent]
        cases hg : genA (ctxOf mem s.messages) with
        | error e =>
          dsimp only
          rw [if_neg hnot]
          exact ⟨rfl, Nat.le_succ _⟩
        | ok resp =>
          dsimp only
          rw [if_neg hnot]
          refine ⟨rfl, ?_⟩
          simp
      · rw [if_neg hc]
        exact ⟨rfl, Nat.le_succ _⟩
  · intro reg cid conv hlook
    constructor
    · simp only [get_conversation_transcript, hlook]
    · intro m hm
      exact contentInfixTranscript conv m hm

/-- C9 witness: concrete instances of the four parts of
observer_disconnect_halts, with a one-message conversation and an observer
that disconnects immediately (capacity 0). -/
theorem observer_disconnect_halts_witness :
    ([{ content := "hey", sender := "user", persona := none }] <+:
      (wsSession (fun _ => .ok "a") (fun _ => .ok "b") (some 0) 1 8 none none
        [{ content := "hey", sender := "user", persona := none }]).messages) ∧
    (∃ conv2, lookupA (websocket_conversation (fun _ => .ok "a") (fun _ => .ok "b") (some 0)
        [("c1", { request := reqNoCred,
                  messages := [{ content := "hey", sender := "user", persona := none }],
                  agent_a := none, agent_b := none, active := true,
                  conversation_id := "c1" })] "c1").1 "c1" = some conv2 ∧
      conv2.active = false ∧
      [{ content := "hey", sender := "user", persona := none }] <+: conv2.messages) ∧
    ((wsLoop (fun _ => .ok "a") (fun _ => .ok "b") 8 1 none none (some 0) 1 0
        { messages := [{ content := "hey", sender := "user", persona := none }],
          events := [], active := true }).1.events = [] ∧
      (wsLoop (fun _ => .ok "a") (fun _ => .ok "b") 8 1 none none (some 0) 1 0
        { messages := [{ content := "hey", sender := "user", persona := none }],
          events := [], active := true }).1.messages.length ≤ 1 + 1) ∧
    (get_conversation_transcript
        [("c1", { request := reqNoCred,
                  messages := [{ content := "hey", sender := "user", persona := none }],
                  agent_a := none, agent_b := none, active := true,
                  conversation_id := "c1" })] "c1" =
      .ok (generate_transcript_content
            { request := reqNoCred,
              messages := [{ content := "hey", sender := "user", persona := none }],
              agent_a := none, agent_b := none, active := true,
              conversation_id := "c1" }, 1) ∧
      ("hey".data <:+: (generate_transcript_content
            { request := reqNoCred,
              messages := [{ content := "hey", sender := "user", persona := none }],
              agent_a := none, agent_b := none, active := true,
              conversation_id := "c1" }).data)) := by
  refine ⟨?_, ?_, ?_, ?_⟩
  · exact observer_disconnect_halts.1 (fun _ => .ok "a") (fun _ => .ok "b") (some 0) 1 8
      none none [{ content := "hey", sender := "user", persona := none }]
  · exact observer_disconnect_halts.2.1 (fun _ => .ok "a") (fun _ => .ok "b") (some 0)
      [("c1", { request := reqNoCred,
                messages := [{ content := "hey", sender := "user", persona := none }],
                agent_a := none, agent_b := none, active := true,
                conversation_id := "c1" })] "c1" _ rfl
  · exact observer_disconnect_halts.2.2.1 (fun _ => .ok "a") (fun _ => .ok "b") 8 1
      none none 0 1 0
      { messages := [{ content := "hey", sender := "user", persona := none }],
        events := [], active := true } (by decide)
  · have h := observer_disconnect_halts.2.2.2
      [("c1", { request := reqNoCred,
                messages := [{ content := "hey", sender := "user", persona := none }],
                agent_a := none, agent_b := none, active := true,
                conversation_id := "c1" })] "c1" _ rfl
    exact ⟨h.1, h.2 { content := "hey", sender := "user", persona := none } (by simp)⟩
